import Mathlib

/-
Verification of the nearest-flight locator (repository there-goes-an-airplane).

The development embeds the two near-duplicate Go service variants, following
the second variant (flightPosition / getClosestFlight / formatFlight /
handler); the first variant's getClosestPlane, distance, feetToMeters and
pointToCartesian are line-for-line the same logic.

Modelling conventions:
* float64 values are modelled as real numbers (geometry) or rational numbers
  (values carried verbatim from the decoded JSON payload);
* a JSON value decoded by json.Unmarshal into interface\x7b\x7d is modelled by
  the inductive type Json below; a failed Unmarshal leaves the Go interface
  nil, modelled by the `none` case of `Option Json`;
* a Go runtime abort (failed type assertion such as v.(map[string]interface
  ...), or an out-of-range slice index such as status[4]) is modelled by
  `Except.error`: the operation aborts and nothing after it runs, exactly as
  the Go code aborts with no recovery in the source;
* math.Inf(1), the initial value of minDistance, is modelled by the top
  element of EReal; finite distances coerce from the reals below it.
-/

namespace Airplane

/-- A JSON value as produced by json.Unmarshal into an empty Go interface:
numbers arrive as float64 (modelled by a rational), strings as string,
arrays as a list, objects as a key/value list, plus booleans and null. -/
inductive Json where
  | num (q : ℚ)
  | str (s : String)
  | arr (elems : List Json)
  | obj (fields : List (String × Json))
  | boolean (b : Bool)
  | null

/-- The flightPosition struct of the source: a feed-assigned identifier,
a geodetic position (float64 longitude and latitude carried verbatim from
the feed), and the altitude in (feed-reported) feet, narrowed to int. -/
structure flightPosition where
  fr24id : String
  longitude : ℚ
  latitude : ℚ
  altitude : ℤ
deriving DecidableEq

/-- The Go zero value flightPosition\x7b\x7d: the initial value of
closestPlane in getClosestFlight, and the value returned when no candidate
replaces it.  The source has no option type; this record is its sentinel
for "no aircraft", recognised by the handler through its blank fields. -/
def emptyFlightPosition : flightPosition :=
  { fr24id := "", longitude := 0, latitude := 0, altitude := 0 }

/-- Go's int(f) conversion of a float64: truncation toward zero.  The
decoder applies it to the feed's altitude value (source: int(status[4].
(float64))). -/
def truncTowardZero (q : ℚ) : ℤ :=
  if 0 ≤ q then ⌊q⌋ else ⌈q⌉

/-- The type assertion response.(map[string]interface ...) on a decoded
JSON value: succeeds only on an object, aborts (Go panic) otherwise. -/
def asObj : Json → Except String (List (String × Json))
  | Json.obj fields => Except.ok fields
  | _ => Except.error "interface conversion: interface is not a map"

/-- The type assertion planeData.([]interface ...): succeeds only on an
array, aborts (Go panic) otherwise. -/
def asArr : Json → Except String (List Json)
  | Json.arr elems => Except.ok elems
  | _ => Except.error "interface conversion: interface is not a slice"

/-- The indexing-plus-assertion status[i].(float64) of the source: aborts
(Go panic) when the index is out of range or the element is not a number. -/
def getNum (status : List Json) (i : Nat) : Except String ℚ :=
  match status.get? i with
  | none => Except.error "runtime error: index out of range"
  | some (Json.num q) => Except.ok q
  | some _ => Except.error "interface conversion: interface is not a float64"

/-- One iteration of the decoding loop of parseFlightsJSON (source lines
188-195): read latitude from index 1, longitude from index 2 and altitude
from index 4 of the positional array, narrowing the altitude to int.  Any
failed assertion or out-of-range index aborts. -/
def parseFlight (fr24id : String) (planeData : Json) : Except String flightPosition :=
  match asArr planeData with
  | Except.error e => Except.error e
  | Except.ok status =>
    match getNum status 1 with
    | Except.error e => Except.error e
    | Except.ok lat =>
      match getNum status 2 with
      | Except.error e => Except.error e
      | Except.ok lon =>
        match getNum status 4 with
        | Except.error e => Except.error e
        | Except.ok alt =>
          Except.ok { fr24id := fr24id, longitude := lon, latitude := lat,
                      altitude := truncTowardZero alt }

/-- The range-over-map loop of parseFlightsJSON: each entry is decoded in
turn and appended; the first abort ends the whole decode (a Go panic
unwinds out of the loop). -/
def decodeFlights : List (String × Json) → Except String (List flightPosition)
  | [] => Except.ok []
  | kv :: rest =>
    match parseFlight kv.1 kv.2 with
    | Except.error e => Except.error e
    | Except.ok plane =>
      match decodeFlights rest with
      | Except.error e => Except.error e
      | Except.ok planes => Except.ok (plane :: planes)

/-- The two delete statements of parseFlightsJSON: the bookkeeping keys
full_count and version are removed before the decoding loop runs. -/
def removeBookkeeping (kvs : List (String × Json)) : List (String × Json) :=
  (kvs.filter (fun kv => kv.1 ≠ "full_count")).filter (fun kv => kv.1 ≠ "version")

/-- parseFlightsJSON (source lines 177-199).  The argument is the result of
json.Unmarshal: `none` when Unmarshal failed (the error is only logged and
the response interface stays nil, so the following type assertion aborts),
`some j` when it produced the JSON value j.  The top-level value is
asserted to be an object, the bookkeeping keys are deleted, and the
remaining entries are decoded one by one; any abort is fatal to the whole
decode. -/
def parseFlightsJSON (response : Option Json) : Except String (List flightPosition) :=
  match response with
  | none => Except.error "interface conversion: interface is nil"
  | some j =>
    match asObj j with
    | Except.error e => Except.error e
    | Except.ok flightsData => decodeFlights (removeBookkeeping flightsData)

/-- The local closure N of pointToCartesian: the prime-vertical radius of
curvature of the WGS84 ellipsoid, N(phi) = a / sqrt(1 - e2 sin(phi)^2)
with a = 6378137 and e2 = 0.006694379990197619. -/
noncomputable def N (phi : ℝ) : ℝ :=
  6378137 / Real.sqrt (1 - 0.006694379990197619 * Real.sin phi ^ 2)

/-- pointToCartesian (source lines 209-221): geodetic longitude, latitude
(consumed as radians) and altitude to Earth-centred Cartesian coordinates.
The z coefficient 0.9933056200098024 is the source's hard-coded value of
1 - e2 rounded to float64. -/
noncomputable def pointToCartesian (longitude latitude altitude : ℝ) : ℝ × ℝ × ℝ :=
  ((N latitude + altitude) * Real.cos latitude * Real.cos longitude,
   (N latitude + altitude) * Real.cos latitude * Real.sin longitude,
   (0.9933056200098024 * N latitude + altitude) * Real.sin latitude)

/-- feetToMeters (source lines 201-203). -/
def feetToMeters (feet : ℝ) : ℝ :=
  0.3048 * feet

/-- distance (source lines 205-207): Euclidean distance between two
Cartesian points given coordinatewise. -/
noncomputable def distance (x1 y1 z1 x2 y2 z2 : ℝ) : ℝ :=
  Real.sqrt ((x2 - x1) ^ 2 + (y2 - y1) ^ 2 + (z2 - z1) ^ 2)

/-- The candidate transform of the selection loop (source line 130):
pointToCartesian(flight.longitude, flight.latitude, float64(flight.
altitude)).  The flight's altitude is passed as it stands — the source
applies no feetToMeters conversion to it. -/
noncomputable def flightToCartesian (flight : flightPosition) : ℝ × ℝ × ℝ :=
  pointToCartesian (flight.longitude : ℝ) (flight.latitude : ℝ) (flight.altitude : ℝ)

/-- distanceToFlight of the selection loop (source line 131): the distance
from the observer's Cartesian point (x, y, z) to the candidate's. -/
noncomputable def distTo (x y z : ℝ) (flight : flightPosition) : ℝ :=
  distance x y z (flightToCartesian flight).1 (flightToCartesian flight).2.1
    (flightToCartesian flight).2.2

/-- One iteration of the selection loop (source lines 129-136): the
candidate replaces the running best exactly when its distance is strictly
below the running minimum (math.Inf(1) at the start, modelled by ⊤). -/
noncomputable def closestStep (x y z : ℝ) (acc : flightPosition × EReal)
    (flight : flightPosition) : flightPosition × EReal :=
  if (distTo x y z flight : EReal) < acc.2 then (flight, (distTo x y z flight : EReal))
  else acc

/-- getClosestFlight (source lines 121-139): transform the observer
(altitude converted from feet to meters), then fold the selection loop
over the candidate list starting from the zero-value record and an
infinite minimum distance. -/
noncomputable def getClosestFlight (longitude latitude altitude : ℝ)
    (flights : List flightPosition) : flightPosition :=
  let p := pointToCartesian longitude latitude (feetToMeters altitude)
  (flights.foldl (closestStep p.1 p.2.1 p.2.2) (emptyFlightPosition, (⊤ : EReal))).1

/-- The distance the selection loop computes for a candidate, as a function
of the raw observer query (source lines 122 and 131). -/
noncomputable def observerDist (longitude latitude altitude : ℝ)
    (flight : flightPosition) : ℝ :=
  let p := pointToCartesian longitude latitude (feetToMeters altitude)
  distTo p.1 p.2.1 p.2.2 flight

/-- formatFlight (source lines 89-101).  The call to getFlightDetails — an
upstream metadata request — is the `details` collaborator parameter,
returning (airline, aircraft model, origin name, destination name).
Sprintf with four %s verbs separated by single spaces is string
concatenation. -/
def formatFlight (details : String → String × String × String × String)
    (flight : String) : String :=
  let d := details flight
  let origin := if d.2.2.1 ≠ "" then "from " ++ d.2.2.1 else d.2.2.1
  let destination := if d.2.2.2 ≠ "" then "to " ++ d.2.2.2 else d.2.2.2
  d.1 ++ " " ++ d.2.1 ++ " " ++ origin ++ " " ++ destination

/-- The request method, as far as the handler distinguishes it. -/
inductive HttpMethod where
  | GET
  | other

/-- What the handler writes back: a normal body, or the 405 error reply of
the default branch. -/
inductive HandlerResult where
  | ok (body : String)
  | methodNotAllowed
deriving DecidableEq

/-- handler (source lines 64-87).  The candidate list stands for what the
upstream feed returns for the query's bounding box, and `details` for the
metadata collaborator.  Each query parameter is modelled by the result of
strconv.ParseFloat: `some v` on success, `none` when the parameter is
absent or malformed — in that case ParseFloat returns the value 0 next to
its error, the handler discards the error (err is overwritten, never
checked) and uses the 0.  A response equal to three spaces — the format of
the zero-value record with all metadata blank — is replaced by the fixed
no-aircraft message. -/
noncomputable def handler (flights : List flightPosition)
    (details : String → String × String × String × String)
    (method : HttpMethod)
    (longitudeParam latitudeParam altitudeParam : Option ℝ) : HandlerResult :=
  match method with
  | HttpMethod.GET =>
    let longitude := longitudeParam.getD 0
    let latitude := latitudeParam.getD 0
    let altitude := altitudeParam.getD 0
    let response := formatFlight details
      (getClosestFlight longitude latitude altitude flights).fr24id
    HandlerResult.ok (if response = "   " then "No aircraft found nearby" else response)
  | HttpMethod.other => HandlerResult.methodNotAllowed

/-- At latitude 0 the radius N evaluates to the semi-major axis. -/
lemma N_zero : N 0 = 6378137 := by
  simp [N]

/-- At the equator/prime-meridian intersection the transform moves a point
at altitude a to (a + semi-major axis, 0, 0). -/
lemma pointToCartesian_zero (a : ℝ) : pointToCartesian 0 0 a = (6378137 + a, 0, 0) := by
  simp [pointToCartesian, N_zero]

/-- Distance along the x axis is the absolute coordinate difference. -/
lemma distance_x (x1 x2 : ℝ) : distance x1 0 0 x2 0 0 = |x2 - x1| := by
  simp [distance, Real.sqrt_sq_eq_abs]

/-- C7: the coordinate transform applied to longitude 0, latitude 0,
altitude 0 yields the Cartesian point (6378137, 0, 0): at the
equator/prime-meridian intersection at sea level the x coordinate is the
WGS84 semi-major axis and y = z = 0. -/
theorem C7_transform_origin : pointToCartesian 0 0 0 = (6378137, 0, 0) := by
  simpa using pointToCartesian_zero 0

/-- C5: for every observer position, the selection loop applied to an empty
candidate list returns the zero-value record — the source's encoding of
"none", recognised downstream by its blank fields — as a normal value of a
total function, with no error path. -/
theorem C5_empty_candidates (longitude latitude altitude : ℝ) :
    getClosestFlight longitude latitude altitude [] = emptyFlightPosition := rfl

/-- Follows the spec's words (§4.1) for comparison with the source: the
feed-reported altitude, being in feet, is converted by the same
metersPerFoot = 0.3048 factor as the observer's altitude before the
geodetic-to-Cartesian transform. -/
noncomputable def flightToCartesianSpec (flight : flightPosition) : ℝ × ℝ × ℝ :=
  pointToCartesian (flight.longitude : ℝ) (flight.latitude : ℝ)
    (feetToMeters (flight.altitude : ℝ))

/-- C2: the code violates the claim.  For a flight at longitude 0,
latitude 0 reporting 1000 feet, the transform the selection loop actually
applies (source line 130) uses the raw value 1000 as meters and yields
x = 6379137, while the identically-converted transform required by the
claim yields x = 6378137 + 304.8; the two Cartesian points differ. -/
theorem C2_altitude_not_converted :
    flightToCartesian { fr24id := "", longitude := 0, latitude := 0, altitude := 1000 }
      = (6378137 + 1000, 0, 0) ∧
    flightToCartesianSpec { fr24id := "", longitude := 0, latitude := 0, altitude := 1000 }
      = (6378137 + 304.8, 0, 0) ∧
    flightToCartesian { fr24id := "", longitude := 0, latitude := 0, altitude := 1000 }
      ≠ flightToCartesianSpec { fr24id := "", longitude := 0, latitude := 0, altitude := 1000 } := by
  have h1 : flightToCartesian { fr24id := "", longitude := 0, latitude := 0, altitude := 1000 }
      = (6378137 + 1000, 0, 0) := by
    simp only [flightToCartesian]
    have := pointToCartesian_zero ((1000 : ℤ) : ℝ)
    push_cast at this ⊢
    simpa using this
  have h2 : flightToCartesianSpec { fr24id := "", longitude := 0, latitude := 0, altitude := 1000 }
      = (6378137 + 304.8, 0, 0) := by
    simp only [flightToCartesianSpec]
    have h304 : feetToMeters ((1000 : ℤ) : ℝ) = 304.8 := by
      simp [feetToMeters]; norm_num
    rw [h304]
    have := pointToCartesian_zero (304.8 : ℝ)
    push_cast at this ⊢
    simpa using this
  refine ⟨h1, h2, ?_⟩
  rw [h1, h2]
  intro h
  have hx := congrArg Prod.fst h
  simp only at hx
  norm_num at hx

/-- Reference form of the selection loop: the running best only, its
distance kept implicitly.  Mirrors one loop iteration: the incoming
candidate replaces the best exactly on strictly smaller distance. -/
noncomputable def selectAux (x y z : ℝ) : flightPosition → List flightPosition → flightPosition
  | best, [] => best
  | best, flight :: rest =>
    if distTo x y z flight < distTo x y z best then selectAux x y z flight rest
    else selectAux x y z best rest

/-- The selection fold carried out from a best whose recorded minimum is
its own distance coincides with the reference form. -/
lemma foldl_closestStep_eq_selectAux (x y z : ℝ) (l : List flightPosition)
    (best : flightPosition) :
    l.foldl (closestStep x y z) (best, (distTo x y z best : EReal))
      = (selectAux x y z best l, (distTo x y z (selectAux x y z best l) : EReal)) := by
  induction l generalizing best with
  | nil => simp [selectAux]
  | cons flight rest ih =>
    by_cases h : distTo x y z flight < distTo x y z best
    · rw [List.foldl_cons, selectAux, if_pos h, closestStep,
        if_pos (EReal.coe_lt_coe_iff.2 h)]
      exact ih flight
    · rw [List.foldl_cons, selectAux, if_neg h, closestStep,
        if_neg (by simpa [EReal.coe_lt_coe_iff] using h)]
      exact ih best

/-- Structure of the reference selection: either the starting best stands,
and it is no farther than every candidate, or the result sits somewhere in
the list, is strictly closer than the starting best and than every
candidate before it, and no farther than every candidate after it. -/
lemma selectAux_split (x y z : ℝ) (l : List flightPosition) (best : flightPosition) :
    (selectAux x y z best l = best ∧
      ∀ f ∈ l, distTo x y z best ≤ distTo x y z f) ∨
    (∃ l₁ l₂, l = l₁ ++ selectAux x y z best l :: l₂ ∧
      distTo x y z (selectAux x y z best l) < distTo x y z best ∧
      (∀ f ∈ l₁, distTo x y z (selectAux x y z best l) < distTo x y z f) ∧
      (∀ f ∈ l₂, distTo x y z (selectAux x y z best l) ≤ distTo x y z f)) := by
  induction l generalizing best with
  | nil => exact Or.inl ⟨rfl, by simp⟩
  | cons flight rest ih =>
    by_cases h : distTo x y z flight < distTo x y z best
    · rw [selectAux, if_pos h]
      rcases ih flight with ⟨heq, hmin⟩ | ⟨l₁, l₂, hsplit, hlt, h₁, h₂⟩
      · refine Or.inr ⟨[], rest, ?_, ?_, ?_, ?_⟩
        · rw [heq]; rfl
        · rw [heq]; exact h
        · intro f hf; simp at hf
        · intro f hf; rw [heq]; exact hmin f hf
      · refine Or.inr ⟨flight :: l₁, l₂, ?_, ?_, ?_, h₂⟩
        · rw [List.cons_append, ← hsplit]
        · exact hlt.trans h
        · intro f hf
          rcases List.mem_cons.1 hf with rfl | hf
          · exact hlt
          · exact h₁ f hf
    · rw [selectAux, if_neg h]
      have hle : distTo x y z best ≤ distTo x y z flight := not_lt.1 h
      rcases ih best with ⟨heq, hmin⟩ | ⟨l₁, l₂, hsplit, hlt, h₁, h₂⟩
      · refine Or.inl ⟨heq, ?_⟩
        intro f hf
        rcases List.mem_cons.1 hf with rfl | hf
        · exact hle
        · exact hmin f hf
      · refine Or.inr ⟨flight :: l₁, l₂, ?_, hlt, ?_, h₂⟩
        · rw [List.cons_append, ← hsplit]
        · intro f hf
          rcases List.mem_cons.1 hf with rfl | hf
          · exact hlt.trans_le hle
          · exact h₁ f hf

/-- On a non-empty list the selection fold equals the reference form run
from the head: the first iteration always replaces the zero-value record,
since every real distance sits strictly below the initial infinity. -/
lemma getClosestFlight_cons (longitude latitude altitude : ℝ)
    (flight : flightPosition) (rest : List flightPosition) :
    getClosestFlight longitude latitude altitude (flight :: rest)
      = selectAux (pointToCartesian longitude latitude (feetToMeters altitude)).1
          (pointToCartesian longitude latitude (feetToMeters altitude)).2.1
          (pointToCartesian longitude latitude (feetToMeters altitude)).2.2
          flight rest := by
  set p := pointToCartesian longitude latitude (feetToMeters altitude) with hp
  have hdef : getClosestFlight longitude latitude altitude (flight :: rest)
      = ((flight :: rest).foldl (closestStep p.1 p.2.1 p.2.2)
          (emptyFlightPosition, (⊤ : EReal))).1 := rfl
  rw [hdef, List.foldl_cons, closestStep, if_pos (EReal.coe_lt_top _),
    foldl_closestStep_eq_selectAux]

/-- C1: for every observer position and every non-empty candidate list the
selection returns a member of the list attaining the minimal distance to
the observer's Cartesian point, and it is the first-seen minimiser: every
candidate preceding it in the list lies strictly farther away, since
replacement happens only on strictly smaller distance. -/
theorem C1_selectClosest_min_first (longitude latitude altitude : ℝ)
    (flights : List flightPosition) (h : flights ≠ []) :
    ∃ l₁ l₂,
      flights = l₁ ++ getClosestFlight longitude latitude altitude flights :: l₂ ∧
      (∀ f ∈ flights,
        observerDist longitude latitude altitude
          (getClosestFlight longitude latitude altitude flights)
          ≤ observerDist longitude latitude altitude f) ∧
      (∀ f ∈ l₁,
        observerDist longitude latitude altitude
          (getClosestFlight longitude latitude altitude flights)
          < observerDist longitude latitude altitude f) := by
  rcases flights with _ | ⟨flight, rest⟩
  · exact absurd rfl h
  set p := pointToCartesian longitude latitude (feetToMeters altitude) with hp
  have hsel : getClosestFlight longitude latitude altitude (flight :: rest)
      = selectAux p.1 p.2.1 p.2.2 flight rest := getClosestFlight_cons _ _ _ _ _
  have hobs : ∀ f, observerDist longitude latitude altitude f = distTo p.1 p.2.1 p.2.2 f := by
    intro f; rfl
  rcases selectAux_split p.1 p.2.1 p.2.2 rest flight with ⟨heq, hmin⟩ | ⟨l₁, l₂, hsplit, hlt, h₁, h₂⟩
  · refine ⟨[], rest, ?_, ?_, ?_⟩
    · rw [hsel, heq]; rfl
    · intro f hf
      rw [hsel, heq, hobs, hobs]
      rcases List.mem_cons.1 hf with rfl | hf
      · exact le_refl _
      · exact hmin f hf
    · intro f hf; simp at hf
  · refine ⟨flight :: l₁, l₂, ?_, ?_, ?_⟩
    · rw [hsel, List.cons_append, ← hsplit]
    · intro f hf
      rw [hsel, hobs, hobs]
      rcases List.mem_cons.1 hf with rfl | hf
      · exact hlt.le
      · rw [hsplit] at hf
        rcases List.mem_append.1 hf with hf | hf
        · exact (h₁ f hf).le
        · rcases List.mem_cons.1 hf with rfl | hf
          · exact le_refl _
          · exact h₂ f hf
    · intro f hf
      rw [hsel, hobs, hobs]
      rcases List.mem_cons.1 hf with rfl | hf
      · exact hlt
      · exact h₁ f hf

/-- Test candidate 5000 meters from the equatorial sea-level observer. -/
def flight5000 : flightPosition :=
  { fr24id := "a", longitude := 0, latitude := 0, altitude := 5000 }

/-- Test candidate 100 meters from the equatorial sea-level observer. -/
def flight100 : flightPosition :=
  { fr24id := "b", longitude := 0, latitude := 0, altitude := 100 }

/-- Test candidate 20000 meters from the equatorial sea-level observer. -/
def flight20000 : flightPosition :=
  { fr24id := "c", longitude := 0, latitude := 0, altitude := 20000 }

/-- Distance computed by the loop from the equatorial sea-level observer to
a candidate sitting at the same longitude and latitude: the altitude gap. -/
lemma distTo_equator (id : String) (a : ℤ) :
    distTo 6378137 0 0 { fr24id := id, longitude := 0, latitude := 0, altitude := a }
      = |(a : ℝ)| := by
  have hc : flightToCartesian { fr24id := id, longitude := 0, latitude := 0, altitude := a }
      = (6378137 + (a : ℝ), 0, 0) := by
    simp only [flightToCartesian]
    push_cast
    simpa using pointToCartesian_zero (a : ℝ)
  simp only [distTo, hc]
  rw [distance_x]
  congr 1
  ring

/-- C1 witness: on the three candidates at distances 5000, 100 and 20000
meters from the equatorial sea-level observer the loop returns the
100-meter candidate, and the general selection theorem instantiates on
that candidate set. -/
theorem C1_selectClosest_witness :
    getClosestFlight 0 0 0 [flight5000, flight100, flight20000] = flight100 ∧
    (∃ l₁ l₂,
      [flight5000, flight100, flight20000]
        = l₁ ++ getClosestFlight 0 0 0 [flight5000, flight100, flight20000] :: l₂ ∧
      (∀ f ∈ [flight5000, flight100, flight20000],
        observerDist 0 0 0 (getClosestFlight 0 0 0 [flight5000, flight100, flight20000])
          ≤ observerDist 0 0 0 f) ∧
      (∀ f ∈ l₁,
        observerDist 0 0 0 (getClosestFlight 0 0 0 [flight5000, flight100, flight20000])
          < observerDist 0 0 0 f)) := by
  have hp : pointToCartesian 0 0 (feetToMeters 0) = ((6378137 : ℝ), 0, 0) := by
    have hf : feetToMeters 0 = 0 := by norm_num [feetToMeters]
    rw [hf]
    simpa using pointToCartesian_zero 0
  have h5000 : distTo 6378137 0 0 flight5000 = 5000 := by
    have h := distTo_equator "a" 5000
    norm_num at h
    exact h
  have h100 : distTo 6378137 0 0 flight100 = 100 := by
    have h := distTo_equator "b" 100
    norm_num at h
    exact h
  have h20000 : distTo 6378137 0 0 flight20000 = 20000 := by
    have h := distTo_equator "c" 20000
    norm_num at h
    exact h
  have heval : getClosestFlight 0 0 0 [flight5000, flight100, flight20000] = flight100 := by
    have h1 : getClosestFlight 0 0 0 [flight5000, flight100, flight20000]
        = selectAux 6378137 0 0 flight5000 [flight100, flight20000] := by
      rw [getClosestFlight_cons, hp]
    rw [h1, selectAux, if_pos (by rw [h100, h5000]; norm_num),
      selectAux, if_neg (by rw [h20000, h100]; norm_num), selectAux]
  exact ⟨heval, C1_selectClosest_min_first 0 0 0 [flight5000, flight100, flight20000] (by simp)⟩

/-- When every entry of a list decodes, the loop returns one record per
entry. -/
lemma decodeFlights_ok_length (l : List (String × Json))
    (hwf : ∀ kv ∈ l, ∃ f, parseFlight kv.1 kv.2 = Except.ok f) :
    ∃ planes, decodeFlights l = Except.ok planes ∧ planes.length = l.length := by
  induction l with
  | nil => exact ⟨[], rfl, rfl⟩
  | cons kv rest ih =>
    obtain ⟨f, hf⟩ := hwf kv (List.mem_cons_self kv rest)
    obtain ⟨planes, hok, hlen⟩ := ih fun kv' h => hwf kv' (List.mem_cons_of_mem kv h)
    refine ⟨f :: planes, ?_, by simpa using hlen⟩
    rw [decodeFlights, hf, hok]

/-- One aborting entry anywhere in the list aborts the whole loop. -/
lemma decodeFlights_error_of_mem (l : List (String × Json)) (k : String) (v : Json)
    (e : String) (hmem : (k, v) ∈ l) (herr : parseFlight k v = Except.error e) :
    ∃ e', decodeFlights l = Except.error e' := by
  induction l with
  | nil => simp at hmem
  | cons kv rest ih =>
    rcases List.mem_cons.1 hmem with heq | hmem'
    · refine ⟨e, ?_⟩
      rw [decodeFlights, ← heq, herr]
    · cases hp : parseFlight kv.1 kv.2 with
      | error e'' => exact ⟨e'', by rw [decodeFlights, hp]⟩
      | ok f =>
        obtain ⟨e', he'⟩ := ih hmem'
        exact ⟨e', by rw [decodeFlights, hp, he']⟩

/-- A positional array too short to hold the altitude index makes its
record abort: index 4 is out of range. -/
lemma parseFlight_short (k : String) (s : List Json) (hshort : s.length ≤ 4) :
    ∃ e, parseFlight k (Json.arr s) = Except.error e := by
  have h4 : getNum s 4 = Except.error "runtime error: index out of range" := by
    rw [getNum, List.get?_eq_none.2 hshort]
  rw [parseFlight]
  cases h1 : getNum s 1 with
  | error e => exact ⟨e, by simp [asArr, h1]⟩
  | ok lat =>
    cases h2 : getNum s 2 with
    | error e => exact ⟨e, by simp [asArr, h1, h2]⟩
    | ok lon =>
      exact ⟨"runtime error: index out of range", by simp [asArr, h1, h2, h4]⟩

/-- C6: a well-formed raw batch decodes to exactly one record per
non-bookkeeping entry: the full_count and version keys are deleted before
the loop and produce no record, every remaining entry produces one. -/
theorem C6_bookkeeping_excluded (kvs : List (String × Json))
    (hwf : ∀ kv ∈ removeBookkeeping kvs, ∃ f, parseFlight kv.1 kv.2 = Except.ok f) :
    ∃ planes, parseFlightsJSON (some (Json.obj kvs)) = Except.ok planes ∧
      planes.length = (removeBookkeeping kvs).length := by
  obtain ⟨planes, hok, hlen⟩ := decodeFlights_ok_length (removeBookkeeping kvs) hwf
  exact ⟨planes, hok, hlen⟩

/-- A positional feed entry of the shape the decoder reads: latitude at
index 1, longitude at index 2, altitude in feet at index 4. -/
def statusArr (lat lon alt : ℚ) : Json :=
  Json.arr [Json.str "hex", Json.num lat, Json.num lon, Json.num 0, Json.num alt]

/-- A raw batch with both bookkeeping keys and two flight entries. -/
def demoBatch : List (String × Json) :=
  [("full_count", Json.num 21347), ("version", Json.num 4),
   ("aaa111", statusArr 51 3 38000), ("bbb222", statusArr 50 4 12000)]

/-- C6 witness: on the demo batch the decoder returns exactly two records,
one per flight entry, none for full_count or version. -/
theorem C6_bookkeeping_witness :
    (∃ planes, parseFlightsJSON (some (Json.obj demoBatch)) = Except.ok planes ∧
      planes.length = (removeBookkeeping demoBatch).length) ∧
    (removeBookkeeping demoBatch).length = 2 := by
  refine ⟨C6_bookkeeping_excluded demoBatch ?_, rfl⟩
  intro kv hkv
  rw [show removeBookkeeping demoBatch
      = [("aaa111", statusArr 51 3 38000), ("bbb222", statusArr 50 4 12000)] from rfl] at hkv
  rcases List.mem_cons.1 hkv with rfl | hkv
  · exact ⟨_, rfl⟩
  rcases List.mem_cons.1 hkv with rfl | hkv
  · exact ⟨_, rfl⟩
  · simp at hkv

/-- A positional feed entry whose array ends before the altitude index:
indices 0 to 3 only. -/
def shortStatus : Json :=
  Json.arr [Json.str "hex", Json.num 50, Json.num 4, Json.num 0]

/-- A raw batch holding one well-formed entry and one entry missing its
altitude index. -/
def mixedBatch : List (String × Json) :=
  [("good01", statusArr 51 3 38000), ("bad002", shortStatus)]

/-- C3 counterexample: the batch with one well-formed record and one record
missing its altitude index does not decode to one record — the decode
aborts on the short array's out-of-range index — although the well-formed
record alone does decode to exactly one record. -/
theorem C3_counterexample_abort :
    parseFlightsJSON (some (Json.obj mixedBatch))
      = Except.error "runtime error: index out of range" ∧
    parseFlightsJSON (some (Json.obj [("good01", statusArr 51 3 38000)]))
      = Except.ok [{ fr24id := "good01", longitude := 3, latitude := 51,
                     altitude := truncTowardZero 38000 }] :=
  ⟨rfl, rfl⟩

/-- C3 amended: a malformed individual record — an entry, outside the
bookkeeping keys, whose positional array is missing the mandatory altitude
index — aborts the whole batch decode instead of being dropped. -/
theorem C3_amended_record_aborts_batch (kvs : List (String × Json)) (k : String)
    (s : List Json) (hmem : (k, Json.arr s) ∈ kvs)
    (hfc : k ≠ "full_count") (hv : k ≠ "version") (hshort : s.length ≤ 4) :
    ∃ e, parseFlightsJSON (some (Json.obj kvs)) = Except.error e := by
  obtain ⟨e, he⟩ := parseFlight_short k s hshort
  have hmem' : (k, Json.arr s) ∈ removeBookkeeping kvs := by
    simp only [removeBookkeeping, List.mem_filter]
    exact ⟨⟨hmem, by simpa using hfc⟩, by simpa using hv⟩
  obtain ⟨e', he'⟩ := decodeFlights_error_of_mem _ k (Json.arr s) e hmem' he
  exact ⟨e', he'⟩

/-- C3 amended witness: the amended statement instantiated on the concrete
mixed batch. -/
theorem C3_amended_witness :
    ∃ e, parseFlightsJSON (some (Json.obj mixedBatch)) = Except.error e :=
  C3_amended_record_aborts_batch mixedBatch "bad002"
    [Json.str "hex", Json.num 50, Json.num 4, Json.num 0]
    (List.mem_cons_of_mem _ (List.mem_cons_self _ _))
    (by decide) (by decide) (by decide)

/-- C4 counterexample: a top-level payload that is not an object — here a
JSON array, and likewise a payload json.Unmarshal could not parse at all —
makes the decode abort on the failed map assertion; it is not turned into
a graceful empty result. -/
theorem C4_counterexample_crash :
    parseFlightsJSON (some (Json.arr []))
      = Except.error "interface conversion: interface is not a map" ∧
    parseFlightsJSON none = Except.error "interface conversion: interface is nil" :=
  ⟨rfl, rfl⟩

/-- C4 amended: for every payload whose top level is not the expected
object shape the decode aborts with a failed type assertion (a crash of
the decoding operation); no error value is surfaced as a "no result"
outcome. -/
theorem C4_amended_nonobject_aborts (response : Option Json)
    (h : ∀ kvs, response ≠ some (Json.obj kvs)) :
    ∃ e, parseFlightsJSON response = Except.error e := by
  rcases response with _ | j
  · exact ⟨"interface conversion: interface is nil", rfl⟩
  rcases j with q | s | elems | fields | b | _
  · exact ⟨"interface conversion: interface is not a map", rfl⟩
  · exact ⟨"interface conversion: interface is not a map", rfl⟩
  · exact ⟨"interface conversion: interface is not a map", rfl⟩
  · exact absurd rfl (h fields)
  · exact ⟨"interface conversion: interface is not a map", rfl⟩
  · exact ⟨"interface conversion: interface is not a map", rfl⟩

/-- C4 amended witness: the amended statement instantiated on a JSON-array
payload. -/
theorem C4_amended_witness :
    ∃ e, parseFlightsJSON (some (Json.arr [])) = Except.error e :=
  C4_amended_nonobject_aborts (some (Json.arr [])) (by intro kvs h; simp at h)

/-- C9: the decoder narrows the feed's floating-point altitude at index 4
to an integer by truncation toward zero — floor for non-negative values,
ceiling for negative ones — so 9999.9 feet decodes to 9999 and -0.5 to 0,
the fraction silently discarded before any distance computation. -/
theorem C9_altitude_truncated_toward_zero :
    (∀ (id : String) (j0 j3 : Json) (lat lon alt : ℚ) (rest : List Json),
      parseFlight id
          (Json.arr (j0 :: Json.num lat :: Json.num lon :: j3 :: Json.num alt :: rest))
        = Except.ok { fr24id := id, longitude := lon, latitude := lat,
                      altitude := truncTowardZero alt }) ∧
    truncTowardZero (9999.9 : ℚ) = 9999 ∧ truncTowardZero (-0.5 : ℚ) = 0 := by
  refine ⟨?_, by norm_num [truncTowardZero], by norm_num [truncTowardZero]⟩
  intro id j0 j3 lat lon alt rest
  rfl

/-- Merging the separator into the from clause. -/
lemma space_append_from (s : String) : " " ++ ("from " ++ s) = " from " ++ s := by
  rw [← String.append_assoc, show (" " ++ "from " : String) = " from " by decide]

/-- Merging the separator into the to clause. -/
lemma space_append_to (s : String) : " " ++ ("to " ++ s) = " to " ++ s := by
  rw [← String.append_assoc, show (" " ++ "to " : String) = " to " by decide]

/-- C8: with both endpoints resolved the formatter emits the single line
"airline aircraft from origin to destination"; an unresolved origin drops
the from clause and an unresolved destination the to clause (the blank
field leaves only its separator); and when selection returns none — the
zero-value record, whose empty identifier resolves to no metadata — the
handler replaces the all-blank line by the fixed no-aircraft message. -/
theorem C8_format (details : String → String × String × String × String)
    (flight airline aircraft origin destination : String)
    (hd : details flight = (airline, aircraft, origin, destination)) :
    (origin ≠ "" → destination ≠ "" →
      formatFlight details flight
        = airline ++ " " ++ aircraft ++ " from " ++ origin ++ " to " ++ destination) ∧
    (origin = "" →
      formatFlight details flight
        = airline ++ " " ++ aircraft ++ " " ++ " " ++
            (if destination = "" then "" else "to " ++ destination)) ∧
    (destination = "" →
      formatFlight details flight
        = airline ++ " " ++ aircraft ++ " " ++
            (if origin = "" then "" else "from " ++ origin) ++ " ") ∧
    (details "" = ("", "", "", "") →
      ∀ (longitudeParam latitudeParam altitudeParam : Option ℝ),
        handler [] details HttpMethod.GET longitudeParam latitudeParam altitudeParam
          = HandlerResult.ok "No aircraft found nearby") := by
  refine ⟨?_, ?_, ?_, ?_⟩
  · intro ho hdest
    simp only [formatFlight, hd, if_pos ho, if_pos hdest]
    simp [String.append_assoc, space_append_from, space_append_to]
  · intro ho
    simp only [formatFlight, hd, ho, ne_eq, not_true_eq_false, if_false, ite_not]
    by_cases hdest : destination = ""
    · simp [hdest]
    · simp [hdest]
  · intro hdest
    simp only [formatFlight, hd, hdest, ne_eq, not_true_eq_false, if_false, ite_not]
    by_cases ho : origin = ""
    · simp [ho]
    · simp [ho]
  · intro h0 longitudeParam latitudeParam altitudeParam
    have hsel : (getClosestFlight (longitudeParam.getD 0) (latitudeParam.getD 0)
        (altitudeParam.getD 0) []).fr24id = "" := rfl
    simp only [handler, hsel, formatFlight, h0]
    rfl

/-- A metadata collaborator for the witnesses: the empty identifier — the
zero-value record's — resolves to no metadata, every other flight to a
fixed airline, aircraft, origin and destination. -/
def demoDetails : String → String × String × String × String :=
  fun flight =>
    if flight = "" then ("", "", "", "")
    else ("Lufthansa", "Airbus A320", "Madrid", "Oslo")

/-- C8 witness: the format theorem instantiated on a resolved flight and on
the empty candidate set. -/
theorem C8_format_witness :
    formatFlight demoDetails "abc123" = "Lufthansa Airbus A320 from Madrid to Oslo" ∧
    handler [] demoDetails HttpMethod.GET none none none
      = HandlerResult.ok "No aircraft found nearby" := by
  have h := C8_format demoDetails "abc123" "Lufthansa" "Airbus A320" "Madrid" "Oslo" rfl
  exact ⟨h.1 (by decide) (by decide), h.2.2.2 rfl none none none⟩

/-- C10: when the longitude, latitude or altitude parameter is absent or
fails float parsing, the handler — which overwrites and never inspects the
parse error — behaves exactly as if that parameter had parsed to 0, and
still answers a normal GET response rather than an error status. -/
theorem C10_parse_errors_ignored (flights : List flightPosition)
    (details : String → String × String × String × String)
    (longitudeParam latitudeParam altitudeParam : Option ℝ)
    (h : longitudeParam = none ∨ latitudeParam = none ∨ altitudeParam = none) :
    handler flights details HttpMethod.GET longitudeParam latitudeParam altitudeParam
      = handler flights details HttpMethod.GET (some (longitudeParam.getD 0))
          (some (latitudeParam.getD 0)) (some (altitudeParam.getD 0)) ∧
    ∃ body,
      handler flights details HttpMethod.GET longitudeParam latitudeParam altitudeParam
        = HandlerResult.ok body := by
  exact ⟨rfl, ⟨_, rfl⟩⟩

/-- C10 witness: a request with a missing longitude parameter is served as
if longitude were 0, with a normal response. -/
theorem C10_witness :
    handler [] demoDetails HttpMethod.GET none (some 2) (some 3)
      = handler [] demoDetails HttpMethod.GET (some 0) (some 2) (some 3) ∧
    ∃ body,
      handler [] demoDetails HttpMethod.GET none (some 2) (some 3)
        = HandlerResult.ok body :=
  C10_parse_errors_ignored [] demoDetails none (some 2) (some 3) (Or.inl rfl)

end Airplane
